import Mathlib

/-
Verification of the PetrFlajsingr/Utilities repository against its
natural-language specification.

Shallow embedding notes:
  * `to_xml<Button>` / `from_xml<Button>` (src/main.cpp, lines 75-105) are
    embedded directly.  tinyxml2 attribute values are modelled by `AttrVal`:
    an attribute written by `SetAttribute(name, double/float)` carries the
    numeric value (as a rational, standing for the decimal text whose
    parse by `std::stod` recovers exactly the backend-representable value);
    `SetAttribute(name, bool)` stores boolean text; `SetAttribute(name,
    const char*)` stores a plain string.
  * `std::stod` applied to an attribute's text is modelled by `stodAttr`:
    it recovers the number of a numeric attribute and fails (in C++:
    throws `std::invalid_argument`, or is undefined when the attribute is
    absent and `Attribute` returned `nullptr`) otherwise; failure is
    modelled by `Option`.
  * The `Config` facade is declared in src/config/Config.h, but its member
    definitions live in Config.tpp (and the concrete backends in
    JsonConfig.h / XmlConfig.h), which are not part of the sources;
    those operations are modelled from the spec, as marked on each
    definition.
-/

set_option autoImplicit false

/-- An XML attribute value as produced by the tinyxml2 `SetAttribute`
overloads used in src/main.cpp: a numeric attribute (written from a
`double`/`float`, carried as the rational it denotes), a plain string
attribute, or a boolean attribute. -/
inductive AttrVal where
  | num (q : ℚ)
  | str (s : String)
  | boolVal (b : Bool)
deriving DecidableEq, Repr

/-- Model of a tinyxml2 `XMLElement`: a tag (its `Value`), optional text
content (`GetText` returns `nullptr` when absent), and an attribute list. -/
structure XMLElement where
  tag : String
  text : Option String
  attrs : List (String × AttrVal)
deriving DecidableEq, Repr

/-- `XMLElement::Attribute(name)`: the first attribute with the given name,
`none` when the element has no such attribute (C++: `nullptr`). -/
def getAttr (elem : XMLElement) (name : String) : Option AttrVal :=
  (elem.attrs.find? (fun p => p.1 == name)).map Prod.snd

/-- Helper for `setAttribute`: replace the existing attribute of this name,
or append a new one (tinyxml2 `FindOrCreateAttribute`). -/
def setAttrList : List (String × AttrVal) → String → AttrVal → List (String × AttrVal)
  | [], n, v => [(n, v)]
  | (m, w) :: rest, n, v =>
      if m == n then (n, v) :: rest else (m, w) :: setAttrList rest n v

/-- `XMLElement::SetAttribute(name, v)`: insert-or-replace an attribute. -/
def setAttribute (elem : XMLElement) (name : String) (v : AttrVal) : XMLElement :=
  { elem with attrs := setAttrList elem.attrs name v }

/-- Model of `std::stod` applied to the text of an attribute: the text of a
numeric attribute parses back to exactly the number it was formatted from
(the spec's lossless round trip through the same parse/format pair); on a
non-numeric attribute `std::stod` throws, and on an absent attribute the
C++ code passes `nullptr` to the `std::string` constructor — both failure
modes are modelled as `none` by the caller's `Option.bind`. -/
def stodAttr : AttrVal → Option ℚ
  | AttrVal.num q => some q
  | AttrVal.str _ => none
  | AttrVal.boolVal _ => none

/-- The textual content of an attribute as `XMLElement::Attribute` returns
it (tinyxml2 stores booleans as "true"/"false"). -/
def attrAsString : AttrVal → String
  | AttrVal.num q => toString q
  | AttrVal.str s => s
  | AttrVal.boolVal b => if b then "true" else "false"

/-- The `Button` widget of src/main.cpp (lines 13-73): observable
properties `text`, `position`, `dimensions` (each a 3-component vector of
backend-representable numbers, modelled as rationals), `visible`,
`enabled`, and a private `id`. -/
structure Button where
  text : String
  position : ℚ × ℚ × ℚ
  dimensions : ℚ × ℚ × ℚ
  visible : Bool
  enabled : Bool
  id : String
deriving DecidableEq, Repr

/-- `to_xml<Button>` (src/main.cpp lines 75-91): sets the element's tag to
"button", its text to the button's text, and writes the attributes
x, y, z, width, height, depth, visible, enabled, id in source order. -/
def to_xml (value : Button) (elem : XMLElement) : XMLElement :=
  let e0 := { elem with tag := "button", text := some value.text }
  let e1 := setAttribute e0 "x" (AttrVal.num value.position.1)
  let e2 := setAttribute e1 "y" (AttrVal.num value.position.2.1)
  let e3 := setAttribute e2 "z" (AttrVal.num value.position.2.2)
  let e4 := setAttribute e3 "width" (AttrVal.num value.dimensions.1)
  let e5 := setAttribute e4 "height" (AttrVal.num value.dimensions.2.1)
  let e6 := setAttribute e5 "depth" (AttrVal.num value.dimensions.2.2)
  let e7 := setAttribute e6 "visible" (AttrVal.boolVal value.visible)
  let e8 := setAttribute e7 "enabled" (AttrVal.boolVal value.enabled)
  setAttribute e8 "id" (AttrVal.str value.id)

/-- `from_xml<Button>` (src/main.cpp lines 93-105): assigns `value.id` from
the "id" attribute, then parses x, y, z into the position, width, height,
depth into the dimensions, and sets the text (empty string when the
element's text is absent).  The visible and enabled fields of `value` are
not touched.  Failure (`none`) models the undefined behaviour / thrown
exception when a required attribute is absent or non-numeric. -/
def from_xml (value : Button) (elem : XMLElement) : Option Button :=
  (getAttr elem "id").bind fun idAttr =>
  ((getAttr elem "x").bind stodAttr).bind fun x =>
  ((getAttr elem "y").bind stodAttr).bind fun y =>
  ((getAttr elem "z").bind stodAttr).bind fun z =>
  ((getAttr elem "width").bind stodAttr).bind fun w =>
  ((getAttr elem "height").bind stodAttr).bind fun h =>
  ((getAttr elem "depth").bind stodAttr).bind fun d =>
  some { value with
          id := attrAsString idAttr,
          position := (x, y, z),
          dimensions := (w, h, d),
          text := elem.text.getD "" }

/-- `isIn` (src/unnamed/part_000 lines 8-10): `std::find_if` over the
container with the predicate `val == value`, compared against `end()`. -/
def isIn {α : Type} [DecidableEq α] (value : α) (container : List α) : Bool :=
  (container.find? (fun val => val == value)).isSome

/-- Modelled from the spec: the value domain of a flat-map (JSON-like)
backend, needed because the concrete backends (JsonConfig.h / XmlConfig.h)
and the member definitions of `Config` (Config.tpp) are not among the
sources.  A stored value is a typed scalar. -/
inductive CVal where
  | i (n : Int)
  | s (t : String)
  | b (v : Bool)
deriving DecidableEq, Repr

/-- Modelled from the spec: the type tag a `get<T>` / `find<T>` request
asks for; a stored value converts to `T` exactly when its tag matches. -/
inductive CTy where
  | i
  | s
  | b
deriving DecidableEq, Repr

/-- The type tag of a stored value. -/
def CVal.ty : CVal → CTy
  | CVal.i _ => CTy.i
  | CVal.s _ => CTy.s
  | CVal.b _ => CTy.b

/-- Raw key lookup in a flat document: first entry with this key. -/
def lookupDoc (doc : List (String × CVal)) (key : String) : Option CVal :=
  (doc.find? (fun p => p.1 == key)).map Prod.snd

/-- Modelled from the spec: `ConfigContainerTraits::find<T>(doc, key)`
(declared at src/config/Config.h lines 24-25, definition in the absent
backend specializations) — the stored value at `key` converted to `T` when
present and type-compatible, otherwise empty; it never throws and never
fabricates a default. -/
def findDoc (doc : List (String × CVal)) (ty : CTy) (key : String) : Option CVal :=
  match lookupDoc doc key with
  | none => none
  | some v => if v.ty == ty then some v else none

/-- Modelled from the spec: `ConfigContainerTraits::contains(doc, key)`
(declared at src/config/Config.h lines 26-27) — existence check
independent of type. -/
def containsDoc (doc : List (String × CVal)) (key : String) : Bool :=
  (lookupDoc doc key).isSome

/-- Modelled from the spec: `ConfigContainerTraits::set(doc, key, value)`
(declared at src/config/Config.h lines 28-29) — insert-or-replace at
`key`; creation is implicit, never an error. -/
def setDoc : List (String × CVal) → String → CVal → List (String × CVal)
  | [], key, v => [(key, v)]
  | (m, w) :: rest, key, v =>
      if m == key then (key, v) :: rest else (m, w) :: setDoc rest key v

/-- The `Config` facade (src/config/Config.h lines 42-81): an in-memory
document and the path it was loaded from; the read-only flag is a type
parameter.  Member bodies live in the absent Config.tpp and are modelled
from the spec below. -/
structure Config (ReadOnly : Bool) where
  data : List (String × CVal)
  path : String
deriving DecidableEq, Repr

/-- Modelled from the spec: the `Config` constructor (Config.h lines
47-50, body in the absent Config.tpp) — invokes the Loader on the path to
populate the document.  The Loader is passed explicitly as the function
from paths to parsed documents. -/
def loadConfig (ro : Bool) (loader : String → List (String × CVal))
    (path : String) : Config ro :=
  { data := loader path, path := path }

/-- Modelled from the spec: `Config::get<T>(key)` (Config.h lines 51-56,
body in the absent Config.tpp) — delegates to the capability trait's
`find`; empty optional when absent or type-incompatible. -/
def Config.get {ro : Bool} (c : Config ro) (ty : CTy) (key : String) :
    Option CVal :=
  findDoc c.data ty key

/-- Modelled from the spec: `Config::getDefault<T>(key, defaultValue)`
(Config.h lines 57-62, body in the absent Config.tpp) — `get<T>(key)` or
the default when empty. -/
def Config.getDefault {ro : Bool} (c : Config ro) (ty : CTy) (key : String)
    (defaultValue : CVal) : CVal :=
  (c.get ty key).getD defaultValue

/-- Modelled from the spec: `Config::set(key, value)` (Config.h lines
63-67, body in the absent Config.tpp) — present only on a mutable-mode
facade (`enable_if_t<!ReadOnly>`, enforced here by the `Config false`
argument type); delegates to the capability trait's `set` and returns the
facade itself, which value semantics render as the post-mutation facade. -/
def Config.set (c : Config false) (key : String) (value : CVal) :
    Config false :=
  { c with data := setDoc c.data key value }

/-- Modelled from the spec: `Config::reload()` (Config.h lines 73-76, body
in the absent Config.tpp) — re-invokes the Loader on the stored path,
replacing the in-memory document wholesale. -/
def Config.reload {ro : Bool} (c : Config ro)
    (loader : String → List (String × CVal)) : Config ro :=
  { c with data := loader c.path }

/-! Concrete values used by the closed witness and counterexample
theorems: the §8 scenario button, an empty element, and decode targets. -/

/-- The §8 scenario widget: text "OK", position (1,2,3), size (40,10,1),
visible, not enabled, id "btn1". -/
def okButton : Button :=
  { text := "OK", position := (1, 2, 3), dimensions := (40, 10, 1),
    visible := true, enabled := false, id := "btn1" }

/-- A fresh element, as handed to `to_xml` for a new entry. -/
def freshElem : XMLElement := { tag := "", text := none, attrs := [] }

/-- A decode target whose flags differ from `okButton`'s. -/
def targetButton : Button :=
  { text := "", position := (0, 0, 0), dimensions := (0, 0, 0),
    visible := false, enabled := true, id := "" }

/-! Lemmas about attribute insert-or-replace and lookup. -/

theorem find?_setAttrList_same (l : List (String × AttrVal)) (n : String)
    (v : AttrVal) :
    (setAttrList l n v).find? (fun p => p.1 == n) = some (n, v) := by
  induction l with
  | nil => simp [setAttrList]
  | cons hd tl ih =>
      obtain ⟨m, w⟩ := hd
      by_cases h : m = n
      · subst h; simp [setAttrList]
      · simp [setAttrList, h, ih]

theorem find?_setAttrList_other (l : List (String × AttrVal)) (n m : String)
    (v : AttrVal) (h : n ≠ m) :
    (setAttrList l n v).find? (fun p => p.1 == m)
      = l.find? (fun p => p.1 == m) := by
  induction l with
  | nil => simp [setAttrList, h]
  | cons hd tl ih =>
      obtain ⟨a, w⟩ := hd
      by_cases ha : a = n
      · subst ha; simp [setAttrList, h]
      · by_cases ham : a = m
        · subst ham; simp [setAttrList, ha, ih]
        · simp [setAttrList, ha, ham, ih]

theorem getAttr_setAttribute_same (e : XMLElement) (n : String) (v : AttrVal) :
    getAttr (setAttribute e n v) n = some v := by
  simp [getAttr, setAttribute, find?_setAttrList_same]

theorem getAttr_setAttribute_other (e : XMLElement) (n m : String)
    (v : AttrVal) (h : n ≠ m) :
    getAttr (setAttribute e n v) m = getAttr e m := by
  simp [getAttr, setAttribute, find?_setAttrList_other _ _ _ _ h]

theorem getAttr_to_xml_id (b : Button) (e : XMLElement) :
    getAttr (to_xml b e) "id" = some (AttrVal.str b.id) := by
  simp [to_xml, getAttr_setAttribute_same]

theorem getAttr_to_xml_x (b : Button) (e : XMLElement) :
    getAttr (to_xml b e) "x" = some (AttrVal.num b.position.1) := by
  simp only [to_xml]
  rw [getAttr_setAttribute_other _ _ _ _ (by decide),
      getAttr_setAttribute_other _ _ _ _ (by decide),
      getAttr_setAttribute_other _ _ _ _ (by decide),
      getAttr_setAttribute_other _ _ _ _ (by decide),
      getAttr_setAttribute_other _ _ _ _ (by decide),
      getAttr_setAttribute_other _ _ _ _ (by decide),
      getAttr_setAttribute_other _ _ _ _ (by decide),
      getAttr_setAttribute_other _ _ _ _ (by decide),
      getAttr_setAttribute_same]

theorem getAttr_to_xml_y (b : Button) (e : XMLElement) :
    getAttr (to_xml b e) "y" = some (AttrVal.num b.position.2.1) := by
  simp only [to_xml]
  rw [getAttr_setAttribute_other _ _ _ _ (by decide),
      getAttr_setAttribute_other _ _ _ _ (by decide),
      getAttr_setAttribute_other _ _ _ _ (by decide),
      getAttr_setAttribute_other _ _ _ _ (by decide),
      getAttr_setAttribute_other _ _ _ _ (by decide),
      getAttr_setAttribute_other _ _ _ _ (by decide),
      getAttr_setAttribute_other _ _ _ _ (by decide),
      getAttr_setAttribute_same]

theorem getAttr_to_xml_z (b : Button) (e : XMLElement) :
    getAttr (to_xml b e) "z" = some (AttrVal.num b.position.2.2) := by
  simp only [to_xml]
  rw [getAttr_setAttribute_other _ _ _ _ (by decide),
      getAttr_setAttribute_other _ _ _ _ (by decide),
      getAttr_setAttribute_other _ _ _ _ (by decide),
      getAttr_setAttribute_other _ _ _ _ (by decide),
      getAttr_setAttribute_other _ _ _ _ (by decide),
      getAttr_setAttribute_other _ _ _ _ (by decide),
      getAttr_setAttribute_same]

theorem getAttr_to_xml_width (b : Button) (e : XMLElement) :
    getAttr (to_xml b e) "width" = some (AttrVal.num b.dimensions.1) := by
  simp only [to_xml]
  rw [getAttr_setAttribute_other _ _ _ _ (by decide),
      getAttr_setAttribute_other _ _ _ _ (by decide),
      getAttr_setAttribute_other _ _ _ _ (by decide),
      getAttr_setAttribute_other _ _ _ _ (by decide),
      getAttr_setAttribute_other _ _ _ _ (by decide),
      getAttr_setAttribute_same]

theorem getAttr_to_xml_height (b : Button) (e : XMLElement) :
    getAttr (to_xml b e) "height" = some (AttrVal.num b.dimensions.2.1) := by
  simp only [to_xml]
  rw [getAttr_setAttribute_other _ _ _ _ (by decide),
      getAttr_setAttribute_other _ _ _ _ (by decide),
      getAttr_setAttribute_other _ _ _ _ (by decide),
      getAttr_setAttribute_other _ _ _ _ (by decide),
      getAttr_setAttribute_same]

theorem getAttr_to_xml_depth (b : Button) (e : XMLElement) :
    getAttr (to_xml b e) "depth" = some (AttrVal.num b.dimensions.2.2) := by
  simp only [to_xml]
  rw [getAttr_setAttribute_other _ _ _ _ (by decide),
      getAttr_setAttribute_other _ _ _ _ (by decide),
      getAttr_setAttribute_other _ _ _ _ (by decide),
      getAttr_setAttribute_same]

/-! Claim theorems about the Button serialization (src/main.cpp). -/

/-- C1 (refuted by the code, see the asymmetry between `to_xml` and
`from_xml`): encoding the §8 scenario button (visible = true,
enabled = false) and decoding the resulting node does NOT restore the
visible and enabled fields — `from_xml` never reads the "visible" and
"enabled" attributes, so the decoded button keeps the decode target's
prior flags (here visible = false, enabled = true), contradicting the
claimed `decode(encode(x)) ≡ x` on those backend-representable fields. -/
theorem roundtrip_drops_visible_enabled :
    okButton.visible = true ∧ okButton.enabled = false ∧
    (from_xml targetButton (to_xml okButton freshElem)).map Button.visible
      = some false ∧
    (from_xml targetButton (to_xml okButton freshElem)).map Button.enabled
      = some true := by
  refine ⟨rfl, rfl, ?_, ?_⟩ <;> decide

/-- C7: on the element written by `to_xml` with its text content removed,
`from_xml` succeeds: it reads back the position, the dimensions and the id
under the same attribute names (and the same lossless numeric base) that
`to_xml` wrote, and decodes the absent text to the empty string — never an
error. -/
theorem from_xml_missing_text (b v : Button) (e : XMLElement) :
    from_xml v { to_xml b e with text := none }
      = some { v with id := b.id, position := b.position,
                      dimensions := b.dimensions, text := "" } := by
  have hattrs : ∀ n, getAttr { to_xml b e with text := none } n
      = getAttr (to_xml b e) n := fun _ => rfl
  simp [from_xml, hattrs, getAttr_to_xml_id, getAttr_to_xml_x,
        getAttr_to_xml_y, getAttr_to_xml_z, getAttr_to_xml_width,
        getAttr_to_xml_height, getAttr_to_xml_depth, stodAttr, attrAsString]

/-- C9 (frame property of the decoder): whatever the element holds — the
"visible"/"enabled" attributes included — a successful `from_xml` assigns
only the id, position, dimensions and text fields; the visible and enabled
fields of the result are exactly those of the decode target. -/
theorem from_xml_frame (v : Button) (e : XMLElement) (b : Button) :
    from_xml v e = some b → b.visible = v.visible ∧ b.enabled = v.enabled := by
  intro h
  simp only [from_xml, Option.bind_eq_some] at h
  obtain ⟨idA, -, x, -, y, -, z, -, w, -, ht, -, d, -, hb⟩ := h
  cases hb
  exact ⟨rfl, rfl⟩

/-- An element carrying every attribute, the "visible" and "enabled"
attributes included, used to witness the decoder frame property on an
input where those attributes disagree with the decode target. -/
def elemWithFlags : XMLElement :=
  { tag := "button", text := some "hi",
    attrs := [("id", AttrVal.str "b"), ("x", AttrVal.num 1),
              ("y", AttrVal.num 2), ("z", AttrVal.num 3),
              ("width", AttrVal.num 4), ("height", AttrVal.num 5),
              ("depth", AttrVal.num 6), ("visible", AttrVal.boolVal true),
              ("enabled", AttrVal.boolVal false)] }

/-- The button `from_xml` produces from `elemWithFlags` over
`targetButton`. -/
def decodedWithFlags : Button :=
  { text := "hi", position := (1, 2, 3), dimensions := (4, 5, 6),
    visible := false, enabled := true, id := "b" }

/-- Witness for C9 at a concrete input: the element carries
visible = true and enabled = false, yet the decoded button keeps the
target's visible = false and enabled = true. -/
theorem from_xml_frame_witness :
    from_xml targetButton elemWithFlags = some decodedWithFlags ∧
    decodedWithFlags.visible = targetButton.visible ∧
    decodedWithFlags.enabled = targetButton.enabled :=
  ⟨by decide,
   from_xml_frame targetButton elemWithFlags decodedWithFlags (by decide)⟩

/-- C10: `isIn` returns true exactly when some element of the container
compares equal to the value (so on an empty container it returns false
for every value). -/
theorem isIn_iff {α : Type} [DecidableEq α] (value : α) (container : List α) :
    isIn value container = true ↔ ∃ x ∈ container, x = value := by
  simp [isIn, List.find?_isSome]

/-- Witness for C10 at concrete inputs: membership holds in a list that
contains the value, and fails on the empty list. -/
theorem isIn_iff_witness :
    isIn (3 : Int) [1, 2, 3] = true ∧ isIn (3 : Int) [] = false :=
  ⟨(isIn_iff (3 : Int) [1, 2, 3]).mpr ⟨3, by decide, rfl⟩, by decide⟩

/-! Lemmas about the document-level insert-or-replace. -/

theorem lookupDoc_setDoc_same (d : List (String × CVal)) (k : String)
    (v : CVal) : lookupDoc (setDoc d k v) k = some v := by
  induction d with
  | nil => simp [lookupDoc, setDoc]
  | cons hd tl ih =>
      obtain ⟨m, w⟩ := hd
      by_cases h : m = k
      · subst h; simp [lookupDoc, setDoc]
      · simpa [lookupDoc, setDoc, h] using ih

theorem lookupDoc_setDoc_other (d : List (String × CVal)) (k m : String)
    (v : CVal) (h : k ≠ m) :
    lookupDoc (setDoc d k v) m = lookupDoc d m := by
  induction d with
  | nil => simp [lookupDoc, setDoc, h]
  | cons hd tl ih =>
      obtain ⟨a, w⟩ := hd
      by_cases ha : a = k
      · subst ha; simp [lookupDoc, setDoc, h]
      · by_cases ham : a = m
        · subst ham; simp [lookupDoc, setDoc, ha]
        · simpa [lookupDoc, setDoc, ha, ham] using ih

/-! Claim theorems about the Config facade (spec-modelled operations). -/

/-- C2: the capability trait's `find` returns the stored value when the
key is present and the stored value is type-compatible with the request,
and an empty optional otherwise — absence and type mismatch yield the very
same empty result, so a caller cannot tell them apart; `find` is total
(never throws) and fabricates no default. -/
theorem findDoc_spec (doc : List (String × CVal)) (ty : CTy) (key : String) :
    (lookupDoc doc key = none → findDoc doc ty key = none) ∧
    (∀ v, lookupDoc doc key = some v → v.ty = ty →
        findDoc doc ty key = some v) ∧
    (∀ v, lookupDoc doc key = some v → v.ty ≠ ty →
        findDoc doc ty key = none) := by
  refine ⟨fun h => ?_, fun v hv ht => ?_, fun v hv ht => ?_⟩ <;>
    simp [findDoc, *]

/-- Witness for C2 at a concrete document: a present compatible key is
found, a type-mismatched request and an absent key both yield `none`. -/
theorem findDoc_spec_witness :
    findDoc [("a", CVal.i 3)] CTy.i "a" = some (CVal.i 3) ∧
    findDoc [("a", CVal.i 3)] CTy.s "a" = none ∧
    findDoc [("a", CVal.i 3)] CTy.i "b" = none :=
  ⟨(findDoc_spec [("a", CVal.i 3)] CTy.i "a").2.1 (CVal.i 3) (by decide)
      (by decide),
   (findDoc_spec [("a", CVal.i 3)] CTy.s "a").2.2 (CVal.i 3) (by decide)
      (by decide),
   (findDoc_spec [("a", CVal.i 3)] CTy.i "b").1 (by decide)⟩

/-- C4 (read-your-writes): on a mutable-mode facade, `set(key, value)`
followed by `get<T>(key)` at the matching type returns that value. -/
theorem set_then_get (c : Config false) (key : String) (value : CVal) :
    (c.set key value).get value.ty key = some value := by
  unfold Config.get Config.set findDoc
  rw [lookupDoc_setDoc_same]
  simp

/-- C5: `reload` re-invokes the loader on the facade's path and replaces
the document wholesale, so after an unsaved `set` it restores the freshly
loaded facade — every key reads its pre-mutation value again. -/
theorem reload_discards_unsaved_set (loader : String → List (String × CVal))
    (path key : String) (value : CVal) (ty : CTy) :
    (((loadConfig false loader path).set key value).reload loader
        = loadConfig false loader path) ∧
    ((((loadConfig false loader path).set key value).reload loader).get ty key
        = (loadConfig false loader path).get ty key) :=
  ⟨rfl, rfl⟩

/-- C6: `getDefault` returns the value of `get` when that optional is
non-empty and the supplied default when it is empty, and it never fails
(it is total); in particular a key absent from a freshly loaded document
reads as an empty `get` and a `getDefault` equal to the default. -/
theorem getDefault_spec (ro : Bool) (loader : String → List (String × CVal))
    (path : String) (c : Config ro) (ty : CTy) (key : String) (d : CVal) :
    (∀ w, c.get ty key = some w → c.getDefault ty key d = w) ∧
    (c.get ty key = none → c.getDefault ty key d = d) ∧
    (lookupDoc (loader path) key = none →
      (loadConfig ro loader path).get ty key = none ∧
      (loadConfig ro loader path).getDefault ty key d = d) := by
  refine ⟨fun w h => ?_, fun h => ?_, fun h => ?_⟩
  · simp [Config.getDefault, h]
  · simp [Config.getDefault, h]
  · have hg : (loadConfig ro loader path).get ty key = none := by
      simp [Config.get, loadConfig, findDoc, h]
    exact ⟨hg, by simp [Config.getDefault, hg]⟩

/-- A concrete loader and facade for the closed Config witnesses. -/
def demoLoader : String → List (String × CVal) := fun _ => [("a", CVal.i 3)]

/-- The facade freshly loaded by `demoLoader`. -/
def demoConfig : Config false := loadConfig false demoLoader "cfg"

/-- Witness for C6 at concrete inputs: a present key reads through, and the
absent key "b" of the freshly loaded document gives an empty `get` and the
default from `getDefault`. -/
theorem getDefault_spec_witness :
    demoConfig.getDefault CTy.i "a" (CVal.i 7) = CVal.i 3 ∧
    demoConfig.get CTy.i "b" = none ∧
    demoConfig.getDefault CTy.i "b" (CVal.i 7) = CVal.i 7 :=
  ⟨(getDefault_spec false demoLoader "cfg" demoConfig CTy.i "a"
      (CVal.i 7)).1 (CVal.i 3) (by decide),
   ((getDefault_spec false demoLoader "cfg" demoConfig CTy.i "b"
      (CVal.i 7)).2.2 (by decide)).1,
   ((getDefault_spec false demoLoader "cfg" demoConfig CTy.i "b"
      (CVal.i 7)).2.2 (by decide)).2⟩

/-- C8: `set` hands back the facade itself — in value semantics, the
post-mutation facade with the same path — so mutations chain: after
`c.set k1 v1 |>.set k2 v2` the path is unchanged and both stored values
are readable (the first one provided the second set did not overwrite
its key). -/
theorem set_chaining (c : Config false) (k1 k2 : String) (v1 v2 : CVal) :
    ((c.set k1 v1).path = c.path) ∧
    (((c.set k1 v1).set k2 v2).path = c.path) ∧
    (((c.set k1 v1).set k2 v2).get v2.ty k2 = some v2) ∧
    (k1 ≠ k2 → ((c.set k1 v1).set k2 v2).get v1.ty k1 = some v1) := by
  refine ⟨rfl, rfl, ?_, fun h => ?_⟩
  · unfold Config.get Config.set findDoc
    rw [lookupDoc_setDoc_same]
    simp
  · unfold Config.get Config.set findDoc
    rw [lookupDoc_setDoc_other _ _ _ _ (Ne.symm h), lookupDoc_setDoc_same]
    simp

/-- Witness for C8 at concrete inputs: chaining two sets on distinct keys
keeps the path and makes both values readable. -/
theorem set_chaining_witness :
    ((demoConfig.set "p" (CVal.i 1)).set "q" (CVal.b true)).path = "cfg" ∧
    ((demoConfig.set "p" (CVal.i 1)).set "q" (CVal.b true)).get CTy.b "q"
      = some (CVal.b true) ∧
    ((demoConfig.set "p" (CVal.i 1)).set "q" (CVal.b true)).get CTy.i "p"
      = some (CVal.i 1) :=
  ⟨(set_chaining demoConfig "p" "q" (CVal.i 1) (CVal.b true)).2.1,
   (set_chaining demoConfig "p" "q" (CVal.i 1) (CVal.b true)).2.2.1,
   (set_chaining demoConfig "p" "q" (CVal.i 1) (CVal.b true)).2.2.2
      (by decide)⟩
